import Mathlib

/-!
Shallow embedding of `examples/websocket/python-client.py` from the
loominal/weft repository, together with proofs about its behaviour.

The client decodes JSON frames from a WebSocket connection and renders
them to the console.  Output is modelled as the list of strings passed to
`print` (one list entry per `print` call); Python exceptions are modelled
by an `Except String` component carrying the exception's message text.
-/

namespace Weft

/-- JSON values as produced by `json.loads`.  Numbers are modelled as
integers (the payload fields exercised here are ids, counts and strings);
objects are association lists with distinct keys. -/
inductive Json where
  | null
  | bool (b : Bool)
  | num (n : Int)
  | str (s : String)
  | arr (elems : List Json)
  | obj (fields : List (String × Json))

/-- First-match lookup in a JSON object's field list (Python `dict` access). -/
def Json.find? : List (String × Json) → String → Option Json
  | [], _ => none
  | (k, v) :: rest, key => if k == key then some v else Json.find? rest key

/-- The Python type name of a value, as it appears in exception messages. -/
def Json.pyTypeName : Json → String
  | .null => "NoneType"
  | .bool _ => "bool"
  | .num _ => "int"
  | .str _ => "str"
  | .arr _ => "list"
  | .obj _ => "dict"

mutual
/-- Python `repr` of a decoded JSON value. -/
def Json.pyRepr : Json → String
  | .null => "None"
  | .bool b => if b then "True" else "False"
  | .num n => toString n
  | .str s => "'" ++ s ++ "'"
  | .arr es => "[" ++ String.intercalate ", " (Json.pyReprList es) ++ "]"
  | .obj fs => "\x7b" ++ String.intercalate ", " (Json.pyReprFields fs) ++ "\x7d"

/-- Helper for `Json.pyRepr` on arrays. -/
def Json.pyReprList : List Json → List String
  | [] => []
  | j :: rest => Json.pyRepr j :: Json.pyReprList rest

/-- Helper for `Json.pyRepr` on objects. -/
def Json.pyReprFields : List (String × Json) → List String
  | [] => []
  | (k, v) :: rest => ("'" ++ k ++ "': " ++ Json.pyRepr v) :: Json.pyReprFields rest
end

/-- Python `str` of a decoded JSON value, as interpolated by an f-string. -/
def Json.pyStr : Json → String
  | .str s => s
  | .bool b => if b then "True" else "False"
  | .null => "None"
  | j => j.pyRepr

/-- Python `==` comparison of a decoded value against a string literal. -/
def Json.eqStr : Json → String → Bool
  | .str t, s => t == s
  | _, _ => false

/-- Python truthiness of a decoded JSON value. -/
def Json.pyTruthy : Json → Bool
  | .null => false
  | .bool b => b
  | .num n => n != 0
  | .str s => !s.isEmpty
  | .arr es => !es.isEmpty
  | .obj fs => !fs.isEmpty

/-- Computation of a Python code block: the list of strings printed so
far, and either a result or the message text of a raised exception.
Output printed before an exception is raised is retained. -/
def M (α : Type) : Type := List String × Except String α

instance : Monad M where
  pure a := (([], Except.ok a) : List String × Except String _)
  bind x f :=
    match x with
    | (out, Except.error e) => (out, Except.error e)
    | (out, Except.ok a) => ((out ++ (f a).1, (f a).2) : List String × Except String _)

/-- One `print(s)` call. -/
def emit (s : String) : M Unit := ([s], Except.ok ())

/-- A raised Python exception, carrying its `str()` message. -/
def throwM {α : Type} (e : String) : M α := ([], Except.error e)

/-- Python `j.get(k, d)`: defaulted dictionary lookup; `AttributeError`
on a non-dict receiver. -/
def pyGetD (j : Json) (k : String) (d : Json) : M Json :=
  match j with
  | .obj fs => pure ((Json.find? fs k).getD d)
  | _ => throwM ("'" ++ j.pyTypeName ++ "' object has no attribute 'get'")

/-- Python `j.get(k)`: lookup defaulting to `None`. -/
def pyGet (j : Json) (k : String) : M Json := pyGetD j k Json.null

/-- Result of a dictionary lookup as a computation: the value when the
key was found, a `KeyError` carrying the quoted key otherwise. -/
def mOfOption (o : Option Json) (k : String) : M Json :=
  match o with
  | some v => pure v
  | none => throwM ("'" ++ k ++ "'")

/-- Python `j[k]`: dictionary subscription; `KeyError` (whose `str()` is
the quoted key) when the key is missing, `TypeError` on a non-dict. -/
def pyIndex (j : Json) (k : String) : M Json :=
  match j with
  | .obj fs => mOfOption (Json.find? fs k) k
  | _ => throwM ("'" ++ j.pyTypeName ++ "' object is not subscriptable")

/-- Boolean prefix test on character lists (structural recursion, used
to model Python's `str.startswith`). -/
def hasPrefixList : List Char → List Char → Bool
  | [], _ => true
  | _ :: _, [] => false
  | p :: ps, c :: cs => p == c && hasPrefixList ps cs

/-- Boolean string-prefix test, via the character lists. -/
def strHasPrefix (p s : String) : Bool := hasPrefixList p.data s.data

/-- Python `k in j` for the containers that occur here. -/
def pyContains (j : Json) (k : String) : M Bool :=
  match j with
  | .obj fs => pure (Json.find? fs k).isSome
  | .arr es => pure (es.any (fun e => e.eqStr k))
  | .str s => pure ((s.splitOn k).length > 1)
  | _ => throwM ("argument of type '" ++ j.pyTypeName ++ "' is not iterable")

/-- Python `j[:8]` (used on the agent guid): total on strings and lists,
`TypeError` otherwise. -/
def pySlice8 (j : Json) : M Json :=
  match j with
  | .str s => pure (Json.str (s.take 8))
  | .arr es => pure (Json.arr (es.take 8))
  | _ => throwM ("'" ++ j.pyTypeName ++ "' object is not subscriptable")

/-- All-strings view of a JSON array, when every element is a string. -/
def allStrings : List Json → Option (List String)
  | [] => some []
  | .str s :: rest => (allStrings rest).map (fun ss => s :: ss)
  | _ => none

/-- Python `sep.join(j)`: joins a list of strings (or the characters of a
string); `TypeError` when an element is not a string or the receiver is
not iterable. -/
def pyJoin (sep : String) (j : Json) : M String :=
  match j with
  | .arr es =>
    match allStrings es with
    | some ss => pure (String.intercalate sep ss)
    | none => throwM "sequence item: expected str instance"
  | .str s => pure (String.intercalate sep (s.data.map (fun c => String.mk [c])))
  | _ => throwM ("can only join an iterable")

/-- Python `j.startswith(p)`; `AttributeError` on a non-string receiver. -/
def pyStartswith (j : Json) (p : String) : M Bool :=
  match j with
  | .str s => pure (strHasPrefix p s)
  | _ => throwM ("'" ++ j.pyTypeName ++ "' object has no attribute 'startswith'")

/-- Replacement of every `Z` character by `+00:00` in a character list
(structural model of the `str.replace('Z', '+00:00')` library call). -/
def replaceZlist : List Char → List Char
  | [] => []
  | c :: rest =>
    if c == 'Z' then '+' :: '0' :: '0' :: ':' :: '0' :: '0' :: replaceZlist rest
    else c :: replaceZlist rest

/-- Modelled library call `s.replace('Z', '+00:00')` on a string. -/
def pyReplaceZstr (s : String) : String := String.mk (replaceZlist s.data)

/-- Python `j.replace('Z', '+00:00')` on the timestamp field;
`AttributeError` on a non-string receiver. -/
def pyReplaceZ (j : Json) : M String :=
  match j with
  | .str s => pure (pyReplaceZstr s)
  | _ => throwM ("'" ++ j.pyTypeName ++ "' object has no attribute 'replace'")

/-- Shape check for the ISO-8601 timezone-offset suffix accepted by the
model of `datetime.fromisoformat`: empty, or a signed `HH:MM` offset. -/
def offsetOk : List Char → Bool
  | [] => true
  | [sgn, h1, h2, c, m1, m2] =>
    (sgn == '+' || sgn == '-') && h1.isDigit && h2.isDigit &&
      c == ':' && m1.isDigit && m2.isDigit
  | _ => false

/-- Shape check for `YYYY-MM-DD(T| )HH:MM:SS` followed by an optional
offset, as a character list. -/
def isoShapeOk : List Char → Bool
  | y1 :: y2 :: y3 :: y4 :: d1 :: mo1 :: mo2 :: d2 :: da1 :: da2 :: sep ::
      h1 :: h2 :: c1 :: mi1 :: mi2 :: c2 :: s1 :: s2 :: rest =>
    y1.isDigit && y2.isDigit && y3.isDigit && y4.isDigit && d1 == '-' &&
      mo1.isDigit && mo2.isDigit && d2 == '-' && da1.isDigit && da2.isDigit &&
      (sep == 'T' || sep == ' ') && h1.isDigit && h2.isDigit && c1 == ':' &&
      mi1.isDigit && mi2.isDigit && c2 == ':' && s1.isDigit && s2.isDigit &&
      offsetOk rest
  | _ => false

/-- Modelled library call: `datetime.fromisoformat(s).strftime('%H:%M:%S')`.
For a string of the shape `YYYY-MM-DD(T| )HH:MM:SS[±HH:MM]` the rendered
time is the literal `HH:MM:SS` field of the string (`strftime` prints the
stored wall-clock fields of the aware datetime unchanged); other shapes
are modelled as a `ValueError`.  Field-range validation beyond digit
shape, fractional seconds and other extended isoformat shapes are not
modelled (no claim depends on them). -/
def fromisoformatHMS (s : String) : M String :=
  if isoShapeOk s.data then pure ((s.drop 11).take 8)
  else throwM ("Invalid isoformat string: '" ++ s ++ "'")

/-- Transcription of `handle_message` (python-client.py, lines 71-190):
classify the decoded message by its `type` field and render it. -/
def handle_message (msg : Json) : M Unit := do
  let msg_type ← pyGet msg "type"
  if msg_type.eqStr "ack" then do
    if (← pyContains msg "subscribed") then do
      emit ("✓ Subscribed to topic: " ++ (← pyIndex msg "subscribed").pyStr ++ "\n")
      emit "Waiting for events...\n"
    if (← pyContains msg "unsubscribed") then
      emit ("✓ Unsubscribed from topic: " ++ (← pyIndex msg "unsubscribed").pyStr)
  else if msg_type.eqStr "event" then do
    let timestamp ← fromisoformatHMS (← pyReplaceZ (← pyIndex msg "timestamp"))
    let event ← pyIndex msg "event"
    let data ← pyIndex msg "data"
    emit ("[" ++ timestamp ++ "] " ++ event.pyStr)
    if (← pyStartswith event "work:") then do
      emit ("  Task ID: " ++ (← pyGetD data "taskId" (Json.str "unknown")).pyStr)
      if (← pyContains data "capability") then
        emit ("  Capability: " ++ (← pyIndex data "capability").pyStr)
      if (← pyContains data "boundary") then
        emit ("  Boundary: " ++ (← pyIndex data "boundary").pyStr)
      if (← pyContains data "priority") then
        emit ("  Priority: " ++ (← pyIndex data "priority").pyStr)
      if (← pyContains data "description") then
        emit ("  Description: " ++ (← pyIndex data "description").pyStr)
      if (← pyContains data "assignedTo") then do
        let agent_type ← pyGetD (← pyGetD data "assignedToAgent" (Json.obj []))
          "agentType" (← pyIndex data "assignedTo")
        emit ("  Assigned to: " ++ agent_type.pyStr)
      if (← pyContains data "errorMessage") then
        emit ("  Error: " ++ (← pyIndex data "errorMessage").pyStr)
      if (← pyContains data "summary") then
        emit ("  Summary: " ++ (← pyIndex data "summary").pyStr)
      if (← pyContains data "progress") then
        emit ("  Progress: " ++ (← pyIndex data "progress").pyStr ++ "%")
    else if (← pyStartswith event "agent:") then do
      let agent ← pyGetD data "agent" (Json.obj [])
      let agent_id ← pySlice8 (← pyGetD agent "guid" (Json.str "unknown"))
      let agent_type ← pyGetD agent "agentType" (Json.str "unknown")
      emit ("  Agent: " ++ agent_id.pyStr ++ "... (" ++ agent_type.pyStr ++ ")")
      if (← pyContains data "status") then
        emit ("  Status: " ++ (← pyIndex data "status").pyStr)
      if (← pyContains data "newStatus") then do
        let prev ← pyGetD data "previousStatus" (Json.str "unknown")
        emit ("  Status: " ++ prev.pyStr ++ " → " ++ (← pyIndex data "newStatus").pyStr)
      if (← pyContains data "currentTaskCount") then
        emit ("  Tasks: " ++ (← pyIndex data "currentTaskCount").pyStr)
      if (← pyContains data "capabilities") then
        emit ("  Capabilities: " ++ (← pyJoin ", " (← pyIndex data "capabilities")))
      if (← pyContains data "boundaries") then
        emit ("  Boundaries: " ++ (← pyJoin ", " (← pyIndex data "boundaries")))
      if (← pyContains data "reason") then
        emit ("  Reason: " ++ (← pyIndex data "reason").pyStr)
      if (← pyContains data "graceful") then
        emit ("  Graceful: " ++ (if (← pyIndex data "graceful").pyTruthy then "Yes" else "No"))
    else do
      let tgt ← pyStartswith event "target:"
      let spin ← pyStartswith event "spin-up:"
      if tgt || spin then do
        if (← pyContains data "targetName") then
          emit ("  Target: " ++ (← pyIndex data "targetName").pyStr)
        if (← pyContains data "agentType") then
          emit ("  Agent Type: " ++ (← pyIndex data "agentType").pyStr)
        if (← pyContains data "mechanism") then
          emit ("  Mechanism: " ++ (← pyIndex data "mechanism").pyStr)
        if (← pyContains data "errorMessage") then
          emit ("  Error: " ++ (← pyIndex data "errorMessage").pyStr)
        if (← pyContains data "durationMs") then
          emit ("  Duration: " ++ (← pyIndex data "durationMs").pyStr ++ "ms")
    emit ""
  else if msg_type.eqStr "stats" then do
    let timestamp ← fromisoformatHMS (← pyReplaceZ (← pyIndex msg "timestamp"))
    let data ← pyIndex msg "data"
    emit ("\n=== Stats Update (" ++ timestamp ++ ") ===")
    emit ("Agents: " ++ (← pyIndex (← pyIndex data "agents") "total").pyStr ++ " total")
    emit ("  Online: " ++
      (← pyGetD (← pyIndex (← pyIndex data "agents") "byStatus") "online" (Json.num 0)).pyStr)
    emit ("  Busy: " ++
      (← pyGetD (← pyIndex (← pyIndex data "agents") "byStatus") "busy" (Json.num 0)).pyStr)
    emit ("Work: " ++ (← pyIndex (← pyIndex data "work") "pending").pyStr ++ " pending, " ++
      (← pyIndex (← pyIndex data "work") "active").pyStr ++ " active")
    emit ("  Completed: " ++ (← pyIndex (← pyIndex data "work") "completed").pyStr ++
      ", Failed: " ++ (← pyIndex (← pyIndex data "work") "failed").pyStr)
    emit ("Targets: " ++ (← pyIndex (← pyIndex data "targets") "available").pyStr ++ "/" ++
      (← pyIndex (← pyIndex data "targets") "total").pyStr ++ " available")
    if (← pyContains data "websocket") then do
      let ws_data ← pyIndex data "websocket"
      emit ("WebSocket: " ++ (← pyIndex ws_data "connections").pyStr ++ " connections, " ++
        (← pyIndex ws_data "subscriptions").pyStr ++ " subscriptions")
    emit ""
  else if msg_type.eqStr "error" then
    emit ("✗ Error: " ++ (← pyIndex msg "error").pyStr)
  else if msg_type.eqStr "pong" then
    pure ()
  else
    pure ()

/-- One inbound WebSocket frame, classified by the outcome of the
`json.loads` call the loop applies to it: either the decoded value, or
the raw text of a frame that is not valid JSON (`json.loads` raises
`json.JSONDecodeError` on it). -/
inductive Frame where
  | valid (j : Json)
  | invalid (raw : String)

/-- One iteration of the message loop body (python-client.py, lines
56-63): decode, dispatch, and catch `JSONDecodeError` or any other
exception; never raises. -/
def processFrame : Frame → List String
  | .invalid raw => ["Failed to parse message: " ++ raw]
  | .valid j =>
    match handle_message j with
    | (out, Except.ok _) => out
    | (out, Except.error e) => out ++ ["Error handling message: " ++ e]

/-- The whole message loop over a finite stream of inbound frames. -/
def processFrames : List Frame → List String
  | [] => []
  | f :: rest => processFrame f ++ processFrames rest

/-- Outcome of `websockets.connect`: either an established connection
delivering a finite stream of frames before the server closes it, or a
`websockets.exceptions.WebSocketException` with the given message raised
while establishing the connection. -/
inductive ConnectResult where
  | ok (frames : List Frame)
  | wsError (e : String)

/-- Transcription of `monitor_weft` (python-client.py, lines 26-68):
returns the JSON payloads passed to `ws.send` and the printed output.
A `WebSocketException` is caught and printed, so the coroutine returns
normally in both modelled outcomes; an `Except.error` result would model
an exception propagating out of it (none does). -/
def monitor_weft (uri : String) : ConnectResult → Except String (List Json × List String)
  | .ok frames =>
    Except.ok
      ([Json.obj [("type", Json.str "subscribe"), ("topic", Json.str "work")],
        Json.obj [("type", Json.str "subscribe"), ("topic", Json.str "agents")]],
       ["Connecting to Weft WebSocket at " ++ uri ++ "...",
        "✓ Connected to Weft\n",
        "Subscribing to work and agent events...",
        ""] ++ processFrames frames)
  | .wsError e =>
    Except.ok
      ([],
       ["Connecting to Weft WebSocket at " ++ uri ++ "...",
        "WebSocket error: " ++ e])

/-- Transcription of `main` (python-client.py, lines 193-202):
`asyncio.run(monitor_weft(ws_url))`.  When the coroutine returns
normally the interpreter falls off the end of `main` and the process
exits with status 0; an exception propagating out of `asyncio.run`
would end the process with a non-zero status. -/
def main_run (uri : String) (r : ConnectResult) : Nat × List String :=
  match monitor_weft uri r with
  | Except.ok (_, out) => (0, out)
  | Except.error _ => (1, [])

/-! Reduction lemmas for the computation monad. -/

/-- Explicit constructor view of a computation. -/
def M.mk {α : Type} (out : List String) (r : Except String α) : M α := (out, r)

/-- The printed output of a computation. -/
def M.out {α : Type} (x : M α) : List String := x.1

/-- The result (or exception) of a computation. -/
def M.res {α : Type} (x : M α) : Except String α := x.2

/-- A line of output carrying the given label: `shown out label` states
that some printed line starts with `label`. -/
def shown (out : List String) (label : String) : Prop :=
  ∃ l ∈ out, strHasPrefix label l = true

/-- The lines printed for one optional field of a `work:` payload. -/
def optLine (dkvs : List (String × Json)) (k : String) (f : Json → String) : List String :=
  match Json.find? dkvs k with
  | some v => [f v]
  | none => []

/-- The `assignedToAgent` field, when present, is an object (the shape the
server sends); the `assignedTo` rendering can only raise when this fails. -/
def ataOk (dkvs : List (String × Json)) : Bool :=
  match Json.find? dkvs "assignedToAgent" with
  | none => true
  | some (Json.obj _) => true
  | some _ => false

/-- The lines printed for the `assignedTo` field of a `work:` payload. -/
def assignLine (dkvs : List (String × Json)) : List String :=
  match Json.find? dkvs "assignedTo" with
  | none => []
  | some raw =>
    match Json.find? dkvs "assignedToAgent" with
    | none => ["  Assigned to: " ++ raw.pyStr]
    | some (Json.obj akvs) =>
      ["  Assigned to: " ++ ((Json.find? akvs "agentType").getD raw).pyStr]
    | some _ => []

/-- The complete output of `handle_message` for a well-shaped `work:`
event message with formatted time `hms`, event name `ev`, and payload
fields `dkvs`. -/
def workLines (hms ev : String) (dkvs : List (String × Json)) : List String :=
  ("[" ++ (hms ++ ("] " ++ ev))) ::
  ("  Task ID: " ++ ((Json.find? dkvs "taskId").getD (Json.str "unknown")).pyStr) ::
  (optLine dkvs "capability" (fun v => "  Capability: " ++ v.pyStr) ++
   (optLine dkvs "boundary" (fun v => "  Boundary: " ++ v.pyStr) ++
    (optLine dkvs "priority" (fun v => "  Priority: " ++ v.pyStr) ++
     (optLine dkvs "description" (fun v => "  Description: " ++ v.pyStr) ++
      (assignLine dkvs ++
       (optLine dkvs "errorMessage" (fun v => "  Error: " ++ v.pyStr) ++
        (optLine dkvs "summary" (fun v => "  Summary: " ++ v.pyStr) ++
         (optLine dkvs "progress" (fun v => "  Progress: " ++ (v.pyStr ++ "%")) ++
          [""]))))))))

/-- The `type` or `topic` field of a message sent to the server. -/
def msgField (m : Json) (k : String) : Option Json :=
  match m with
  | Json.obj fs => Json.find? fs k
  | _ => none

@[simp] theorem out_mk {α : Type} (out : List String) (r : Except String α) :
    M.out (M.mk out r) = out := rfl

@[simp] theorem res_mk {α : Type} (out : List String) (r : Except String α) :
    M.res (M.mk out r) = r := rfl

@[simp] theorem bind_mk_ok {α β : Type} (out : List String) (a : α) (f : α → M β) :
    (M.mk out (Except.ok a) >>= f) = M.mk (out ++ M.out (f a)) (M.res (f a)) := rfl

@[simp] theorem bind_mk_err {α β : Type} (out : List String) (e : String) (f : α → M β) :
    (M.mk out (Except.error e) >>= f) = M.mk out (Except.error e) := rfl

@[simp] theorem pure_mk {α : Type} (a : α) : (pure a : M α) = M.mk [] (Except.ok a) := rfl

@[simp] theorem emit_mk (s : String) : emit s = M.mk [s] (Except.ok ()) := rfl

@[simp] theorem throwM_mk {α : Type} (e : String) :
    (throwM e : M α) = M.mk [] (Except.error e) := rfl

@[simp] theorem mk_eta {α : Type} (x : M α) : M.mk (M.out x) (M.res x) = x := rfl

theorem mk_inj {α : Type} (o1 o2 : List String) (r1 r2 : Except String α) :
    M.mk o1 r1 = M.mk o2 r2 ↔ o1 = o2 ∧ r1 = r2 := Prod.mk.injEq o1 r1 o2 r2 ▸ Iff.rfl

/-! Reduction lemmas for the Python primitives on well-shaped receivers. -/

@[simp] theorem pyGetD_obj (fs : List (String × Json)) (k : String) (d : Json) :
    pyGetD (Json.obj fs) k d = M.mk [] (Except.ok ((Json.find? fs k).getD d)) := rfl

@[simp] theorem pyIndex_obj (fs : List (String × Json)) (k : String) :
    pyIndex (Json.obj fs) k = mOfOption (Json.find? fs k) k := rfl

@[simp] theorem mOfOption_some (v : Json) (k : String) :
    mOfOption (some v) k = M.mk [] (Except.ok v) := rfl

@[simp] theorem mOfOption_none (k : String) :
    mOfOption none k = M.mk [] (Except.error ("'" ++ k ++ "'")) := rfl

@[simp] theorem pyContains_obj (fs : List (String × Json)) (k : String) :
    pyContains (Json.obj fs) k = M.mk [] (Except.ok (Json.find? fs k).isSome) := rfl

@[simp] theorem pyStartswith_str (s p : String) :
    pyStartswith (Json.str s) p = M.mk [] (Except.ok (strHasPrefix p s)) := rfl

@[simp] theorem pyReplaceZ_str (s : String) :
    pyReplaceZ (Json.str s) = M.mk [] (Except.ok (pyReplaceZstr s)) := rfl

@[simp] theorem pySlice8_str (s : String) :
    pySlice8 (Json.str s) = M.mk [] (Except.ok (Json.str (s.take 8))) := rfl

@[simp] theorem fromisoformatHMS_ok (s : String) (h : isoShapeOk s.data = true) :
    fromisoformatHMS s = M.mk [] (Except.ok ((s.drop 11).take 8)) := by
  simp [fromisoformatHMS, h]

/-! Prefix lemmas used to decide which labelled lines appear in output. -/

theorem hasPrefixList_self_append (p s : List Char) : hasPrefixList p (p ++ s) = true := by
  induction p with
  | nil => rfl
  | cons c cs ih => simp [hasPrefixList, ih]

theorem hasPrefixList_append_false (p b s : List Char)
    (h1 : hasPrefixList p b = false) (h2 : hasPrefixList b p = false) :
    hasPrefixList p (b ++ s) = false := by
  induction p generalizing b with
  | nil => simp [hasPrefixList] at h1
  | cons c cs ih =>
    cases b with
    | nil => simp [hasPrefixList] at h2
    | cons d ds =>
      simp only [hasPrefixList, List.cons_append, Bool.and_eq_false_iff] at h1 h2 ⊢
      rcases h1 with h1 | h1
      · exact Or.inl h1
      · rcases h2 with h2 | h2
        · cases hcd : c == d
          · exact Or.inl rfl
          · rw [BEq.comm] at hcd
            rw [hcd] at h2
            cases h2
        · exact Or.inr (ih ds h1 h2)

/-- A labelled line `b ++ s` is never shown under a label `p` when neither
of `p`, `b` is a prefix of the other. -/
theorem no_show (p b s : String) (h1 : hasPrefixList p.data b.data = false)
    (h2 : hasPrefixList b.data p.data = false)
    (hp : strHasPrefix p (b ++ s) = true) : False := by
  rw [strHasPrefix, String.data_append, hasPrefixList_append_false _ _ _ h1 h2] at hp
  cases hp

theorem strHasPrefix_self_append (p s : String) : strHasPrefix p (p ++ s) = true := by
  rw [strHasPrefix, String.data_append]
  exact hasPrefixList_self_append _ _

theorem shown_cons (l : String) (out : List String) (label : String) :
    shown (l :: out) label ↔ strHasPrefix label l = true ∨ shown out label := by
  simp [shown]

theorem shown_append (a b : List String) (label : String) :
    shown (a ++ b) label ↔ shown a label ∨ shown b label := by
  simp [shown, or_and_right, exists_or]

theorem shown_nil (label : String) : ¬ shown [] label := by
  simp [shown]

/-! Closed-form description of the `work:` branch of `handle_message`. -/

@[simp] theorem pyStr_str (s : String) : (Json.str s).pyStr = s := rfl

@[simp] theorem seg_step (dkvs : List (String × Json)) (k : String) (f : Json → String)
    (O : List String) (S : Except String Unit) :
    (if (Json.find? dkvs k).isSome then
       mOfOption (Json.find? dkvs k) k >>= (fun v => M.mk (f v :: O) S)
     else M.mk O S) = M.mk (optLine dkvs k f ++ O) S := by
  cases h : Json.find? dkvs k <;> simp [h, optLine]

theorem assign_step (dkvs : List (String × Json)) (hata : ataOk dkvs = true)
    (O : List String) (S : Except String Unit) :
    (if (Json.find? dkvs "assignedTo").isSome then
       mOfOption (Json.find? dkvs "assignedTo") "assignedTo" >>= (fun raw =>
         pyGetD ((Json.find? dkvs "assignedToAgent").getD (Json.obj [])) "agentType" raw >>=
           (fun t => M.mk (("  Assigned to: " ++ t.pyStr) :: O) S))
     else M.mk O S) = M.mk (assignLine dkvs ++ O) S := by
  cases h1 : Json.find? dkvs "assignedTo" with
  | none => simp [assignLine, h1]
  | some raw =>
    cases h2 : Json.find? dkvs "assignedToAgent" with
    | none => simp [assignLine, h1, h2, Json.find?]
    | some ata =>
      cases ata <;> simp_all [assignLine, ataOk, h1, h2]

theorem handle_message_work (kvs dkvs : List (String × Json)) (ts ev : String)
    (hty : Json.find? kvs "type" = some (Json.str "event"))
    (hts : Json.find? kvs "timestamp" = some (Json.str ts))
    (hok : isoShapeOk (pyReplaceZstr ts).data = true)
    (hev : Json.find? kvs "event" = some (Json.str ev))
    (hwork : strHasPrefix "work:" ev = true)
    (hdata : Json.find? kvs "data" = some (Json.obj dkvs))
    (hata : ataOk dkvs = true) :
    handle_message (Json.obj kvs) =
      M.mk (workLines (((pyReplaceZstr ts).drop 11).take 8) ev dkvs)
        (Except.ok ()) := by
  simp [handle_message, pyGet, hty, hts, hev, hdata, hok, hwork, Json.eqStr,
        assign_step dkvs hata, workLines, String.append_assoc]

theorem mem_optLine (dkvs : List (String × Json)) (k : String) (f : Json → String)
    (l : String) : l ∈ optLine dkvs k f ↔ ∃ v, Json.find? dkvs k = some v ∧ l = f v := by
  cases h : Json.find? dkvs k <;> simp [optLine, h]

theorem mem_assignLine (dkvs : List (String × Json)) (l : String)
    (hata : ataOk dkvs = true) (h : l ∈ assignLine dkvs) :
    (Json.find? dkvs "assignedTo").isSome = true ∧
      ∃ t : Json, l = "  Assigned to: " ++ t.pyStr := by
  cases h1 : Json.find? dkvs "assignedTo" with
  | none => simp [assignLine, h1] at h
  | some raw =>
    cases h2 : Json.find? dkvs "assignedToAgent" with
    | none =>
      simp [assignLine, h1, h2] at h
      exact ⟨by simp [h1], raw, h⟩
    | some ata =>
      cases ata with
      | obj akvs =>
        simp [assignLine, h1, h2] at h
        exact ⟨by simp [h1], _, h⟩
      | null => simp_all [ataOk, h2]
      | bool b => simp_all [ataOk, h2]
      | num n => simp_all [ataOk, h2]
      | str s => simp_all [ataOk, h2]
      | arr es => simp_all [ataOk, h2]

theorem assignLine_sh (dkvs : List (String × Json)) (hata : ataOk dkvs = true)
    (h : (Json.find? dkvs "assignedTo").isSome = true) :
    ∃ t : Json, ("  Assigned to: " ++ t.pyStr) ∈ assignLine dkvs := by
  obtain ⟨raw, h1⟩ := Option.isSome_iff_exists.mp h
  cases h2 : Json.find? dkvs "assignedToAgent" with
  | none => exact ⟨raw, by simp [assignLine, h1, h2]⟩
  | some ata =>
    cases ata with
    | obj akvs =>
      exact ⟨(Json.find? akvs "agentType").getD raw, by simp [assignLine, h1, h2]⟩
    | null => simp_all [ataOk, h2]
    | bool b => simp_all [ataOk, h2]
    | num n => simp_all [ataOk, h2]
    | str s => simp_all [ataOk, h2]
    | arr es => simp_all [ataOk, h2]

theorem workLines_shown_iff (dkvs : List (String × Json)) (hms ev : String)
    (hata : ataOk dkvs = true) :
    shown (workLines hms ev dkvs) "  Task ID: " ∧
    (shown (workLines hms ev dkvs) "  Capability: " ↔
      (Json.find? dkvs "capability").isSome = true) ∧
    (shown (workLines hms ev dkvs) "  Boundary: " ↔
      (Json.find? dkvs "boundary").isSome = true) ∧
    (shown (workLines hms ev dkvs) "  Priority: " ↔
      (Json.find? dkvs "priority").isSome = true) ∧
    (shown (workLines hms ev dkvs) "  Description: " ↔
      (Json.find? dkvs "description").isSome = true) ∧
    (shown (workLines hms ev dkvs) "  Assigned to: " ↔
      (Json.find? dkvs "assignedTo").isSome = true) ∧
    (shown (workLines hms ev dkvs) "  Error: " ↔
      (Json.find? dkvs "errorMessage").isSome = true) ∧
    (shown (workLines hms ev dkvs) "  Summary: " ↔
      (Json.find? dkvs "summary").isSome = true) ∧
    (shown (workLines hms ev dkvs) "  Progress: " ↔
      (Json.find? dkvs "progress").isSome = true) := by
  refine ⟨?_, ?_, ?_, ?_, ?_, ?_, ?_, ?_, ?_⟩
  · exact ⟨"  Task ID: " ++ ((Json.find? dkvs "taskId").getD (Json.str "unknown")).pyStr,
      by simp [workLines], strHasPrefix_self_append _ _⟩
  · constructor
    · rintro ⟨l, hl, hp⟩
      simp only [workLines, List.mem_cons, List.mem_append, mem_optLine,
        List.mem_singleton, List.not_mem_nil, or_false] at hl
      rcases hl with rfl | rfl | ⟨v, hv, rfl⟩ | ⟨v, hv, rfl⟩ | ⟨v, hv, rfl⟩ | ⟨v, hv, rfl⟩ |
        hassign | ⟨v, hv, rfl⟩ | ⟨v, hv, rfl⟩ | ⟨v, hv, rfl⟩ | rfl
      all_goals first
        | (rw [hv]; rfl)
        | exact (mem_assignLine _ _ hata hassign).1
        | exact (no_show _ _ _ (by decide) (by decide) hp).elim
        | exact absurd hp (by decide)
        | (obtain ⟨hsome, t, hteq⟩ := mem_assignLine _ _ hata hassign
           subst hteq
           exact (no_show _ _ _ (by decide) (by decide) hp).elim)
    · intro h
      obtain ⟨v, hv⟩ := Option.isSome_iff_exists.mp h
      exact ⟨"  Capability: " ++ v.pyStr,
        by simp [workLines, List.mem_cons, List.mem_append, mem_optLine, hv],
        strHasPrefix_self_append _ _⟩
  · constructor
    · rintro ⟨l, hl, hp⟩
      simp only [workLines, List.mem_cons, List.mem_append, mem_optLine,
        List.mem_singleton, List.not_mem_nil, or_false] at hl
      rcases hl with rfl | rfl | ⟨v, hv, rfl⟩ | ⟨v, hv, rfl⟩ | ⟨v, hv, rfl⟩ | ⟨v, hv, rfl⟩ |
        hassign | ⟨v, hv, rfl⟩ | ⟨v, hv, rfl⟩ | ⟨v, hv, rfl⟩ | rfl
      all_goals first
        | (rw [hv]; rfl)
        | exact (mem_assignLine _ _ hata hassign).1
        | exact (no_show _ _ _ (by decide) (by decide) hp).elim
        | exact absurd hp (by decide)
        | (obtain ⟨hsome, t, hteq⟩ := mem_assignLine _ _ hata hassign
           subst hteq
           exact (no_show _ _ _ (by decide) (by decide) hp).elim)
    · intro h
      obtain ⟨v, hv⟩ := Option.isSome_iff_exists.mp h
      exact ⟨"  Boundary: " ++ v.pyStr,
        by simp [workLines, List.mem_cons, List.mem_append, mem_optLine, hv],
        strHasPrefix_self_append _ _⟩
  · constructor
    · rintro ⟨l, hl, hp⟩
      simp only [workLines, List.mem_cons, List.mem_append, mem_optLine,
        List.mem_singleton, List.not_mem_nil, or_false] at hl
      rcases hl with rfl | rfl | ⟨v, hv, rfl⟩ | ⟨v, hv, rfl⟩ | ⟨v, hv, rfl⟩ | ⟨v, hv, rfl⟩ |
        hassign | ⟨v, hv, rfl⟩ | ⟨v, hv, rfl⟩ | ⟨v, hv, rfl⟩ | rfl
      all_goals first
        | (rw [hv]; rfl)
        | exact (mem_assignLine _ _ hata hassign).1
        | exact (no_show _ _ _ (by decide) (by decide) hp).elim
        | exact absurd hp (by decide)
        | (obtain ⟨hsome, t, hteq⟩ := mem_assignLine _ _ hata hassign
           subst hteq
           exact (no_show _ _ _ (by decide) (by decide) hp).elim)
    · intro h
      obtain ⟨v, hv⟩ := Option.isSome_iff_exists.mp h
      exact ⟨"  Priority: " ++ v.pyStr,
        by simp [workLines, List.mem_cons, List.mem_append, mem_optLine, hv],
        strHasPrefix_self_append _ _⟩
  · constructor
    · rintro ⟨l, hl, hp⟩
      simp only [workLines, List.mem_cons, List.mem_append, mem_optLine,
        List.mem_singleton, List.not_mem_nil, or_false] at hl
      rcases hl with rfl | rfl | ⟨v, hv, rfl⟩ | ⟨v, hv, rfl⟩ | ⟨v, hv, rfl⟩ | ⟨v, hv, rfl⟩ |
        hassign | ⟨v, hv, rfl⟩ | ⟨v, hv, rfl⟩ | ⟨v, hv, rfl⟩ | rfl
      all_goals first
        | (rw [hv]; rfl)
        | exact (mem_assignLine _ _ hata hassign).1
        | exact (no_show _ _ _ (by decide) (by decide) hp).elim
        | exact absurd hp (by decide)
        | (obtain ⟨hsome, t, hteq⟩ := mem_assignLine _ _ hata hassign
           subst hteq
           exact (no_show _ _ _ (by decide) (by decide) hp).elim)
    · intro h
      obtain ⟨v, hv⟩ := Option.isSome_iff_exists.mp h
      exact ⟨"  Description: " ++ v.pyStr,
        by simp [workLines, List.mem_cons, List.mem_append, mem_optLine, hv],
        strHasPrefix_self_append _ _⟩
  · constructor
    · rintro ⟨l, hl, hp⟩
      simp only [workLines, List.mem_cons, List.mem_append, mem_optLine,
        List.mem_singleton, List.not_mem_nil, or_false] at hl
      rcases hl with rfl | rfl | ⟨v, hv, rfl⟩ | ⟨v, hv, rfl⟩ | ⟨v, hv, rfl⟩ | ⟨v, hv, rfl⟩ |
        hassign | ⟨v, hv, rfl⟩ | ⟨v, hv, rfl⟩ | ⟨v, hv, rfl⟩ | rfl
      all_goals first
        | (rw [hv]; rfl)
        | exact (mem_assignLine _ _ hata hassign).1
        | exact (no_show _ _ _ (by decide) (by decide) hp).elim
        | exact absurd hp (by decide)
        | (obtain ⟨hsome, t, hteq⟩ := mem_assignLine _ _ hata hassign
           subst hteq
           exact (no_show _ _ _ (by decide) (by decide) hp).elim)
    · intro h
      obtain ⟨t, ht⟩ := assignLine_sh dkvs hata h
      exact ⟨"  Assigned to: " ++ t.pyStr,
        by
          simp only [workLines, List.mem_cons, List.mem_append]
          exact Or.inr (Or.inr (Or.inr (Or.inr (Or.inr (Or.inr (Or.inl ht)))))),
        strHasPrefix_self_append _ _⟩
  · constructor
    · rintro ⟨l, hl, hp⟩
      simp only [workLines, List.mem_cons, List.mem_append, mem_optLine,
        List.mem_singleton, List.not_mem_nil, or_false] at hl
      rcases hl with rfl | rfl | ⟨v, hv, rfl⟩ | ⟨v, hv, rfl⟩ | ⟨v, hv, rfl⟩ | ⟨v, hv, rfl⟩ |
        hassign | ⟨v, hv, rfl⟩ | ⟨v, hv, rfl⟩ | ⟨v, hv, rfl⟩ | rfl
      all_goals first
        | (rw [hv]; rfl)
        | exact (mem_assignLine _ _ hata hassign).1
        | exact (no_show _ _ _ (by decide) (by decide) hp).elim
        | exact absurd hp (by decide)
        | (obtain ⟨hsome, t, hteq⟩ := mem_assignLine _ _ hata hassign
           subst hteq
           exact (no_show _ _ _ (by decide) (by decide) hp).elim)
    · intro h
      obtain ⟨v, hv⟩ := Option.isSome_iff_exists.mp h
      exact ⟨"  Error: " ++ v.pyStr,
        by simp [workLines, List.mem_cons, List.mem_append, mem_optLine, hv],
        strHasPrefix_self_append _ _⟩
  · constructor
    · rintro ⟨l, hl, hp⟩
      simp only [workLines, List.mem_cons, List.mem_append, mem_optLine,
        List.mem_singleton, List.not_mem_nil, or_false] at hl
      rcases hl with rfl | rfl | ⟨v, hv, rfl⟩ | ⟨v, hv, rfl⟩ | ⟨v, hv, rfl⟩ | ⟨v, hv, rfl⟩ |
        hassign | ⟨v, hv, rfl⟩ | ⟨v, hv, rfl⟩ | ⟨v, hv, rfl⟩ | rfl
      all_goals first
        | (rw [hv]; rfl)
        | exact (mem_assignLine _ _ hata hassign).1
        | exact (no_show _ _ _ (by decide) (by decide) hp).elim
        | exact absurd hp (by decide)
        | (obtain ⟨hsome, t, hteq⟩ := mem_assignLine _ _ hata hassign
           subst hteq
           exact (no_show _ _ _ (by decide) (by decide) hp).elim)
    · intro h
      obtain ⟨v, hv⟩ := Option.isSome_iff_exists.mp h
      exact ⟨"  Summary: " ++ v.pyStr,
        by simp [workLines, List.mem_cons, List.mem_append, mem_optLine, hv],
        strHasPrefix_self_append _ _⟩
  · constructor
    · rintro ⟨l, hl, hp⟩
      simp only [workLines, List.mem_cons, List.mem_append, mem_optLine,
        List.mem_singleton, List.not_mem_nil, or_false] at hl
      rcases hl with rfl | rfl | ⟨v, hv, rfl⟩ | ⟨v, hv, rfl⟩ | ⟨v, hv, rfl⟩ | ⟨v, hv, rfl⟩ |
        hassign | ⟨v, hv, rfl⟩ | ⟨v, hv, rfl⟩ | ⟨v, hv, rfl⟩ | rfl
      all_goals first
        | (rw [hv]; rfl)
        | exact (mem_assignLine _ _ hata hassign).1
        | exact (no_show _ _ _ (by decide) (by decide) hp).elim
        | exact absurd hp (by decide)
        | (obtain ⟨hsome, t, hteq⟩ := mem_assignLine _ _ hata hassign
           subst hteq
           exact (no_show _ _ _ (by decide) (by decide) hp).elim)
    · intro h
      obtain ⟨v, hv⟩ := Option.isSome_iff_exists.mp h
      exact ⟨"  Progress: " ++ (v.pyStr ++ "%"),
        by simp [workLines, List.mem_cons, List.mem_append, mem_optLine, hv],
        strHasPrefix_self_append _ _⟩

/-- C1 counterexample: the claim "each of the nine fields absent from
`data` does not appear in the output (in particular, `taskId` is printed
only when present)" fails on the code.  For a `work:created` event whose
`data` object is empty, `taskId` is absent, yet a `Task ID` line (showing
the `unknown` default) is printed. -/
theorem C1_counterexample :
    Json.find? ([] : List (String × Json)) "taskId" = none ∧
    shown (M.out (handle_message (Json.obj
      [("type", Json.str "event"),
       ("timestamp", Json.str "2024-01-15T14:30:00Z"),
       ("event", Json.str "work:created"),
       ("data", Json.obj [])]))) "  Task ID: " :=
  ⟨rfl, "  Task ID: unknown", by decide, by decide⟩

/-- C1 (amended): for every `event` message whose event name starts with
`work:` — with a well-shaped ISO timestamp, `data` an object, and
`assignedToAgent`, when present, an object — a `Task ID` line is always
printed, showing `unknown` when `taskId` is absent from `data`, and each
of the other eight fields capability, boundary, priority, description,
assignedTo, errorMessage, summary, progress appears in the rendered
output if and only if it is present in `data`. -/
theorem C1_amended (kvs dkvs : List (String × Json)) (ts ev : String)
    (hty : Json.find? kvs "type" = some (Json.str "event"))
    (hts : Json.find? kvs "timestamp" = some (Json.str ts))
    (hok : isoShapeOk (pyReplaceZstr ts).data = true)
    (hev : Json.find? kvs "event" = some (Json.str ev))
    (hwork : strHasPrefix "work:" ev = true)
    (hdata : Json.find? kvs "data" = some (Json.obj dkvs))
    (hata : ataOk dkvs = true) :
    shown (M.out (handle_message (Json.obj kvs))) "  Task ID: " ∧
    (shown (M.out (handle_message (Json.obj kvs))) "  Capability: " ↔
      (Json.find? dkvs "capability").isSome = true) ∧
    (shown (M.out (handle_message (Json.obj kvs))) "  Boundary: " ↔
      (Json.find? dkvs "boundary").isSome = true) ∧
    (shown (M.out (handle_message (Json.obj kvs))) "  Priority: " ↔
      (Json.find? dkvs "priority").isSome = true) ∧
    (shown (M.out (handle_message (Json.obj kvs))) "  Description: " ↔
      (Json.find? dkvs "description").isSome = true) ∧
    (shown (M.out (handle_message (Json.obj kvs))) "  Assigned to: " ↔
      (Json.find? dkvs "assignedTo").isSome = true) ∧
    (shown (M.out (handle_message (Json.obj kvs))) "  Error: " ↔
      (Json.find? dkvs "errorMessage").isSome = true) ∧
    (shown (M.out (handle_message (Json.obj kvs))) "  Summary: " ↔
      (Json.find? dkvs "summary").isSome = true) ∧
    (shown (M.out (handle_message (Json.obj kvs))) "  Progress: " ↔
      (Json.find? dkvs "progress").isSome = true) := by
  rw [handle_message_work kvs dkvs ts ev hty hts hok hev hwork hdata hata, out_mk]
  exact workLines_shown_iff dkvs _ ev hata

/-- C1 witness: the amended statement applied to a concrete `work:assigned`
event carrying `capability` and `assignedTo` but no other optional field. -/
theorem C1_witness :
    ataOk [("capability", Json.str "build"), ("assignedTo", Json.str "agent-7")] = true ∧
    (shown (M.out (handle_message (Json.obj
      [("type", Json.str "event"),
       ("timestamp", Json.str "2024-01-15T14:30:00Z"),
       ("event", Json.str "work:assigned"),
       ("data", Json.obj
         [("capability", Json.str "build"), ("assignedTo", Json.str "agent-7")])])))
      "  Task ID: " ∧
    (shown (M.out (handle_message (Json.obj
      [("type", Json.str "event"),
       ("timestamp", Json.str "2024-01-15T14:30:00Z"),
       ("event", Json.str "work:assigned"),
       ("data", Json.obj
         [("capability", Json.str "build"), ("assignedTo", Json.str "agent-7")])])))
      "  Capability: " ↔
      (Json.find? [("capability", Json.str "build"), ("assignedTo", Json.str "agent-7")]
        "capability").isSome = true) ∧
    (shown (M.out (handle_message (Json.obj
      [("type", Json.str "event"),
       ("timestamp", Json.str "2024-01-15T14:30:00Z"),
       ("event", Json.str "work:assigned"),
       ("data", Json.obj
         [("capability", Json.str "build"), ("assignedTo", Json.str "agent-7")])])))
      "  Boundary: " ↔
      (Json.find? [("capability", Json.str "build"), ("assignedTo", Json.str "agent-7")]
        "boundary").isSome = true) ∧
    (shown (M.out (handle_message (Json.obj
      [("type", Json.str "event"),
       ("timestamp", Json.str "2024-01-15T14:30:00Z"),
       ("event", Json.str "work:assigned"),
       ("data", Json.obj
         [("capability", Json.str "build"), ("assignedTo", Json.str "agent-7")])])))
      "  Priority: " ↔
      (Json.find? [("capability", Json.str "build"), ("assignedTo", Json.str "agent-7")]
        "priority").isSome = true) ∧
    (shown (M.out (handle_message (Json.obj
      [("type", Json.str "event"),
       ("timestamp", Json.str "2024-01-15T14:30:00Z"),
       ("event", Json.str "work:assigned"),
       ("data", Json.obj
         [("capability", Json.str "build"), ("assignedTo", Json.str "agent-7")])])))
      "  Description: " ↔
      (Json.find? [("capability", Json.str "build"), ("assignedTo", Json.str "agent-7")]
        "description").isSome = true) ∧
    (shown (M.out (handle_message (Json.obj
      [("type", Json.str "event"),
       ("timestamp", Json.str "2024-01-15T14:30:00Z"),
       ("event", Json.str "work:assigned"),
       ("data", Json.obj
         [("capability", Json.str "build"), ("assignedTo", Json.str "agent-7")])])))
      "  Assigned to: " ↔
      (Json.find? [("capability", Json.str "build"), ("assignedTo", Json.str "agent-7")]
        "assignedTo").isSome = true) ∧
    (shown (M.out (handle_message (Json.obj
      [("type", Json.str "event"),
       ("timestamp", Json.str "2024-01-15T14:30:00Z"),
       ("event", Json.str "work:assigned"),
       ("data", Json.obj
         [("capability", Json.str "build"), ("assignedTo", Json.str "agent-7")])])))
      "  Error: " ↔
      (Json.find? [("capability", Json.str "build"), ("assignedTo", Json.str "agent-7")]
        "errorMessage").isSome = true) ∧
    (shown (M.out (handle_message (Json.obj
      [("type", Json.str "event"),
       ("timestamp", Json.str "2024-01-15T14:30:00Z"),
       ("event", Json.str "work:assigned"),
       ("data", Json.obj
         [("capability", Json.str "build"), ("assignedTo", Json.str "agent-7")])])))
      "  Summary: " ↔
      (Json.find? [("capability", Json.str "build"), ("assignedTo", Json.str "agent-7")]
        "summary").isSome = true) ∧
    (shown (M.out (handle_message (Json.obj
      [("type", Json.str "event"),
       ("timestamp", Json.str "2024-01-15T14:30:00Z"),
       ("event", Json.str "work:assigned"),
       ("data", Json.obj
         [("capability", Json.str "build"), ("assignedTo", Json.str "agent-7")])])))
      "  Progress: " ↔
      (Json.find? [("capability", Json.str "build"), ("assignedTo", Json.str "agent-7")]
        "progress").isSome = true)) :=
  ⟨rfl,
   C1_amended
     [("type", Json.str "event"),
      ("timestamp", Json.str "2024-01-15T14:30:00Z"),
      ("event", Json.str "work:assigned"),
      ("data", Json.obj
        [("capability", Json.str "build"), ("assignedTo", Json.str "agent-7")])]
     [("capability", Json.str "build"), ("assignedTo", Json.str "agent-7")]
     "2024-01-15T14:30:00Z" "work:assigned"
     rfl rfl (by decide) rfl (by decide) rfl rfl⟩

/-- C2: a frame that is not valid JSON produces exactly one
parse-failure log line, and the loop continues: the frames after it are
still processed, with their output unchanged. -/
theorem C2_parse_failure (pre rest : List Frame) (raw : String) :
    processFrames (pre ++ Frame.invalid raw :: rest) =
      processFrames pre ++ ("Failed to parse message: " ++ raw) :: processFrames rest := by
  induction pre with
  | nil => rfl
  | cons f fs ih => simp [processFrames, ih]

/-- C3: when rendering a decoded message raises an exception, the loop
prints the lines emitted before the exception, then one log line carrying
the exception's message text, and continues with the remaining frames. -/
theorem C3_render_error (pre rest : List Frame) (j : Json) (out : List String) (e : String)
    (h : handle_message j = M.mk out (Except.error e)) :
    processFrames (pre ++ Frame.valid j :: rest) =
      processFrames pre ++ (out ++ ["Error handling message: " ++ e]) ++ processFrames rest := by
  induction pre with
  | nil => simp [processFrames, processFrame, h, M.mk]
  | cons f fs ih => simp [processFrames, ih]

/-- C3 witness: an `event` message with no `timestamp` key raises
`KeyError('timestamp')`; the loop logs it and still processes a later
frame. -/
theorem C3_witness :
    handle_message (Json.obj [("type", Json.str "event")]) =
      M.mk [] (Except.error "'timestamp'") ∧
    processFrames
        [Frame.invalid "oops", Frame.valid (Json.obj [("type", Json.str "event")]),
         Frame.valid (Json.obj [("type", Json.str "pong")])] =
      processFrames [Frame.invalid "oops"] ++
        ([] ++ ["Error handling message: " ++ "'timestamp'"]) ++
        processFrames [Frame.valid (Json.obj [("type", Json.str "pong")])] :=
  ⟨rfl,
   C3_render_error [Frame.invalid "oops"]
     [Frame.valid (Json.obj [("type", Json.str "pong")])]
     (Json.obj [("type", Json.str "event")]) [] "'timestamp'" rfl⟩

/-- C4: for an `event` and a `stats` message whose timestamp is the
ISO-8601 string `2024-01-15T14:30:00Z`, the rendered output contains the
substring `14:30:00`. -/
theorem C4_timestamp_format :
    (∃ l ∈ M.out (handle_message (Json.obj
        [("type", Json.str "event"),
         ("timestamp", Json.str "2024-01-15T14:30:00Z"),
         ("event", Json.str "job:done"),
         ("data", Json.obj [])])),
      "14:30:00".data <:+: l.data) ∧
    (∃ l ∈ M.out (handle_message (Json.obj
        [("type", Json.str "stats"),
         ("timestamp", Json.str "2024-01-15T14:30:00Z"),
         ("data", Json.obj
           [("agents", Json.obj
              [("total", Json.num 5),
               ("byStatus", Json.obj [("online", Json.num 3), ("busy", Json.num 2)])]),
            ("work", Json.obj
              [("pending", Json.num 1), ("active", Json.num 2),
               ("completed", Json.num 3), ("failed", Json.num 0)]),
            ("targets", Json.obj
              [("available", Json.num 1), ("total", Json.num 4)])])])),
      "14:30:00".data <:+: l.data) :=
  ⟨⟨"[14:30:00] job:done", by decide, "[".data, "] job:done".data, by decide⟩,
   ⟨"\n=== Stats Update (14:30:00) ===", by decide,
    "\n=== Stats Update (".data, ") ===".data, by decide⟩⟩

/-- C5: on a successful connection the client sends exactly two
subscription payloads before the receive loop output, both of type
`subscribe`, with topics `work` then `agents` in that order — in
particular no subscription to the `stats` topic is sent. -/
theorem C5_subscriptions (uri : String) (frames : List Frame) :
    ∃ sends prints, monitor_weft uri (ConnectResult.ok frames) = Except.ok (sends, prints) ∧
      sends.length = 2 ∧
      sends.map (fun m => msgField m "type") =
        [some (Json.str "subscribe"), some (Json.str "subscribe")] ∧
      sends.map (fun m => msgField m "topic") =
        [some (Json.str "work"), some (Json.str "agents")] :=
  ⟨_, _, rfl, rfl, rfl, rfl⟩

/-- C10: a `WebSocketException` raised while establishing the connection
is caught inside `monitor_weft` — the error is printed, nothing is
re-raised — so the process exits with status 0, the same exit status as a
clean shutdown (a connection whose frame stream simply ends). -/
theorem C10_ws_error_exit (uri e : String) :
    main_run uri (ConnectResult.wsError e) =
      (0, ["Connecting to Weft WebSocket at " ++ uri ++ "...",
           "WebSocket error: " ++ e]) ∧
    (main_run uri (ConnectResult.wsError e)).1 =
      (main_run uri (ConnectResult.ok [])).1 :=
  ⟨rfl, rfl⟩

set_option maxHeartbeats 1000000 in
/-- C6: for every `ack` message, a `subscribed` field produces a
confirmation line carrying the topic value, and an `unsubscribed` field
produces a confirmation line carrying the topic value. -/
theorem C6_ack_confirmations (kvs : List (String × Json))
    (h : Json.find? kvs "type" = some (Json.str "ack")) :
    (∀ v : Json, Json.find? kvs "subscribed" = some v →
      ("✓ Subscribed to topic: " ++ v.pyStr ++ "\n") ∈
        M.out (handle_message (Json.obj kvs))) ∧
    (∀ v : Json, Json.find? kvs "unsubscribed" = some v →
      ("✓ Unsubscribed from topic: " ++ v.pyStr) ∈
        M.out (handle_message (Json.obj kvs))) := by
  constructor
  · intro v hv
    simp [handle_message, pyGet, h, hv, Json.eqStr]
  · intro v hv
    cases hsub : Json.find? kvs "subscribed" <;>
      simp [handle_message, pyGet, h, hv, hsub, Json.eqStr]

/-- C6 witness: an `ack` carrying both `subscribed: work` and
`unsubscribed: agents` produces both confirmation lines. -/
theorem C6_witness :
    ("✓ Subscribed to topic: " ++ (Json.str "work").pyStr ++ "\n") ∈
      M.out (handle_message (Json.obj
        [("type", Json.str "ack"), ("subscribed", Json.str "work"),
         ("unsubscribed", Json.str "agents")])) ∧
    ("✓ Unsubscribed from topic: " ++ (Json.str "agents").pyStr) ∈
      M.out (handle_message (Json.obj
        [("type", Json.str "ack"), ("subscribed", Json.str "work"),
         ("unsubscribed", Json.str "agents")])) :=
  ⟨(C6_ack_confirmations
      [("type", Json.str "ack"), ("subscribed", Json.str "work"),
       ("unsubscribed", Json.str "agents")] rfl).1 (Json.str "work") rfl,
   (C6_ack_confirmations
      [("type", Json.str "ack"), ("subscribed", Json.str "work"),
       ("unsubscribed", Json.str "agents")] rfl).2 (Json.str "agents") rfl⟩

/-- C8: a `pong` message produces no printed output and no error, and so
does every message whose `type` value is none of `ack`, `event`, `stats`,
`error`, `pong`. -/
theorem C8_silent_types (kvs : List (String × Json)) :
    (Json.find? kvs "type" = some (Json.str "pong") →
      handle_message (Json.obj kvs) = M.mk [] (Except.ok ())) ∧
    (∀ tv : Json, Json.find? kvs "type" = some tv →
      (tv.eqStr "ack" || tv.eqStr "event" || tv.eqStr "stats" ||
        tv.eqStr "error" || tv.eqStr "pong") = false →
      handle_message (Json.obj kvs) = M.mk [] (Except.ok ())) := by
  constructor
  · intro h
    simp [handle_message, pyGet, h, Json.eqStr]
  · intro tv h hne
    simp only [Bool.or_eq_false_iff] at hne
    obtain ⟨⟨⟨⟨h1, h2⟩, h3⟩, h4⟩, h5⟩ := hne
    simp [handle_message, pyGet, h, h1, h2, h3, h4, h5]

/-- C8 witness: a bare `pong` message and a message of unknown type
`foo` both render to the empty output with no exception. -/
theorem C8_witness :
    handle_message (Json.obj [("type", Json.str "pong")]) = M.mk [] (Except.ok ()) ∧
    handle_message (Json.obj [("type", Json.str "foo")]) = M.mk [] (Except.ok ()) :=
  ⟨(C8_silent_types _).1 rfl,
   (C8_silent_types _).2 (Json.str "foo") rfl (by decide)⟩

theorem mem_workLines_assign (hms ev : String) (dkvs : List (String × Json)) (l : String)
    (h : l ∈ assignLine dkvs) : l ∈ workLines hms ev dkvs := by
  simp only [workLines, List.mem_cons, List.mem_append]
  exact Or.inr (Or.inr (Or.inr (Or.inr (Or.inr (Or.inr (Or.inl h))))))

/-- C7: for a `work:` event whose data has an `assignedTo` field, the
`Assigned to` line shows the nested `assignedToAgent.agentType` value
when that nested field is present, and the raw `assignedTo` id
otherwise (nested object without `agentType`, or no nested object). -/
theorem C7_assigned_preference (kvs dkvs : List (String × Json)) (ts ev : String) (raw : Json)
    (hty : Json.find? kvs "type" = some (Json.str "event"))
    (hts : Json.find? kvs "timestamp" = some (Json.str ts))
    (hok : isoShapeOk (pyReplaceZstr ts).data = true)
    (hev : Json.find? kvs "event" = some (Json.str ev))
    (hwork : strHasPrefix "work:" ev = true)
    (hdata : Json.find? kvs "data" = some (Json.obj dkvs))
    (hata : ataOk dkvs = true)
    (hraw : Json.find? dkvs "assignedTo" = some raw) :
    (Json.find? dkvs "assignedToAgent" = none →
      ("  Assigned to: " ++ raw.pyStr) ∈ M.out (handle_message (Json.obj kvs))) ∧
    (∀ akvs : List (String × Json),
      Json.find? dkvs "assignedToAgent" = some (Json.obj akvs) →
      (∀ aty : Json, Json.find? akvs "agentType" = some aty →
        ("  Assigned to: " ++ aty.pyStr) ∈ M.out (handle_message (Json.obj kvs))) ∧
      (Json.find? akvs "agentType" = none →
        ("  Assigned to: " ++ raw.pyStr) ∈ M.out (handle_message (Json.obj kvs)))) := by
  rw [handle_message_work kvs dkvs ts ev hty hts hok hev hwork hdata hata, out_mk]
  refine ⟨?_, ?_⟩
  · intro hnone
    exact mem_workLines_assign _ _ _ _ (by simp [assignLine, hraw, hnone])
  · intro akvs hsome
    refine ⟨?_, ?_⟩
    · intro aty haty
      exact mem_workLines_assign _ _ _ _ (by simp [assignLine, hraw, hsome, haty])
    · intro hnoty
      exact mem_workLines_assign _ _ _ _ (by simp [assignLine, hraw, hsome, hnoty])

/-- C7 witness: with `assignedTo: a-1` and a nested
`assignedToAgent.agentType: coder`, the line shows `coder`; with the
nested object lacking `agentType`, it shows the raw id. -/
theorem C7_witness :
    ("  Assigned to: " ++ (Json.str "coder").pyStr) ∈
      M.out (handle_message (Json.obj
        [("type", Json.str "event"),
         ("timestamp", Json.str "2024-01-15T14:30:00Z"),
         ("event", Json.str "work:assigned"),
         ("data", Json.obj
           [("assignedTo", Json.str "a-1"),
            ("assignedToAgent", Json.obj [("agentType", Json.str "coder")])])])) :=
  ((C7_assigned_preference
      [("type", Json.str "event"),
       ("timestamp", Json.str "2024-01-15T14:30:00Z"),
       ("event", Json.str "work:assigned"),
       ("data", Json.obj
         [("assignedTo", Json.str "a-1"),
          ("assignedToAgent", Json.obj [("agentType", Json.str "coder")])])]
      [("assignedTo", Json.str "a-1"),
       ("assignedToAgent", Json.obj [("agentType", Json.str "coder")])]
      "2024-01-15T14:30:00Z" "work:assigned" (Json.str "a-1")
      rfl rfl (by decide) rfl (by decide) rfl rfl rfl).2
    [("agentType", Json.str "coder")] rfl).1 (Json.str "coder") rfl

set_option maxHeartbeats 1000000 in
/-- C9: for an `agent:` event the agent header line is rendered without
error even when `data` has no nested `agent` object (both the id and the
type default to `unknown`), and, when the agent object is present with a
string guid, the printed id is the first 8 characters taken totally — a
guid shorter than 8 characters (such as the 7-character `unknown`
default) is printed in full rather than raising. -/
theorem C9_agent_header (kvs dkvs : List (String × Json)) (ts evr : String)
    (hty : Json.find? kvs "type" = some (Json.str "event"))
    (hts : Json.find? kvs "timestamp" = some (Json.str ts))
    (hok : isoShapeOk (pyReplaceZstr ts).data = true)
    (hev : Json.find? kvs "event" = some (Json.str ("agent:" ++ evr)))
    (hdata : Json.find? kvs "data" = some (Json.obj dkvs)) :
    (Json.find? dkvs "agent" = none →
      "  Agent: unknown... (unknown)" ∈ M.out (handle_message (Json.obj kvs))) ∧
    (∀ (akvs : List (String × Json)) (g : String),
      Json.find? dkvs "agent" = some (Json.obj akvs) →
      (Json.find? akvs "guid").getD (Json.str "unknown") = Json.str g →
      ("  Agent: " ++ g.take 8 ++ "... (" ++
        ((Json.find? akvs "agentType").getD (Json.str "unknown")).pyStr ++ ")") ∈
        M.out (handle_message (Json.obj kvs))) := by
  have hnw : strHasPrefix "work:" ("agent:" ++ evr) = false := by
    rw [strHasPrefix, String.data_append]
    exact hasPrefixList_append_false _ _ _ (by decide) (by decide)
  have hag : strHasPrefix "agent:" ("agent:" ++ evr) = true := strHasPrefix_self_append _ _
  constructor
  · intro hnone
    simp [handle_message, pyGet, hty, hts, hok, hev, hdata, hnw, hag, hnone,
      Json.eqStr, Json.find?]
    exact Or.inr (Or.inl (by decide))
  · intro akvs g hsome hguid
    simp [handle_message, pyGet, hty, hts, hok, hev, hdata, hnw, hag, hsome, hguid,
      Json.eqStr]

/-- C9 witness: an `agent:started` event with no nested agent object
prints the fully-defaulted header, and an `agent:joined` event whose
agent object has the 3-character guid `abc` and no `agentType` prints
the short guid in full. -/
theorem C9_witness :
    "  Agent: unknown... (unknown)" ∈ M.out (handle_message (Json.obj
      [("type", Json.str "event"),
       ("timestamp", Json.str "2024-01-15T14:30:00Z"),
       ("event", Json.str ("agent:" ++ "started")),
       ("data", Json.obj [("status", Json.str "online")])])) ∧
    ("  Agent: " ++ "abc".take 8 ++ "... (" ++
      ((Json.find? [("guid", Json.str "abc")] "agentType").getD
        (Json.str "unknown")).pyStr ++ ")") ∈
      M.out (handle_message (Json.obj
        [("type", Json.str "event"),
         ("timestamp", Json.str "2024-01-15T14:30:00Z"),
         ("event", Json.str ("agent:" ++ "joined")),
         ("data", Json.obj [("agent", Json.obj [("guid", Json.str "abc")])])])) :=
  ⟨(C9_agent_header
      [("type", Json.str "event"),
       ("timestamp", Json.str "2024-01-15T14:30:00Z"),
       ("event", Json.str ("agent:" ++ "started")),
       ("data", Json.obj [("status", Json.str "online")])]
      [("status", Json.str "online")] "2024-01-15T14:30:00Z" "started"
      rfl rfl (by decide) rfl rfl).1 rfl,
   (C9_agent_header
      [("type", Json.str "event"),
       ("timestamp", Json.str "2024-01-15T14:30:00Z"),
       ("event", Json.str ("agent:" ++ "joined")),
       ("data", Json.obj [("agent", Json.obj [("guid", Json.str "abc")])])]
      [("agent", Json.obj [("guid", Json.str "abc")])] "2024-01-15T14:30:00Z" "joined"
      rfl rfl (by decide) rfl rfl).2 [("guid", Json.str "abc")] "abc" rfl rfl⟩

end Weft
